import Mathlib

/-!
Shallow embedding of the core of the `claude-code-mux` gateway:
the wire translators (`src/server/openai_compat.rs`, `src/providers/gemini.rs`),
the provider registry (`src/providers/registry.rs`) and the OAuth client
(`src/auth/oauth.rs`).  Rust `u8`/`u32` values are modelled as `Nat` with
explicit `% 2^w` where overflow matters; `f32` values are only moved, never
computed with, and are modelled by `Rat`; fallible Rust functions returning
`Result` are modelled by `Except`.
-/

/-- `f32` fields of the data model.  The translators copy these values verbatim
and never perform arithmetic on them, so any type with decidable equality is a
faithful carrier. -/
abbrev F32 := Rat

/-! ## JSON values (`serde_json::Value`) -/

/-- `serde_json::Value`.  Objects are ordered association lists with unique
keys (`serde_json::Map`); numbers are collapsed to `Int` since no code under
verification inspects numeric payloads. -/
inductive Json where
  | null : Json
  | bool (b : Bool) : Json
  | num (n : Int) : Json
  | str (s : String) : Json
  | arr (xs : List Json) : Json
  | obj (fields : List (String × Json)) : Json

/-- The JSON-Schema metadata keys removed by `clean_json_schema`
(`src/providers/gemini.rs` lines 33-40). -/
def forbiddenKey (k : String) : Bool :=
  k == "$schema" || k == "$id" || k == "$ref" || k == "$comment" ||
  k == "exclusiveMinimum" || k == "exclusiveMaximum" || k == "definitions" || k == "$defs"

mutual

/-- `clean_json_schema` (`src/providers/gemini.rs` lines 29-55): at each object
remove the forbidden metadata keys, then recurse into the remaining object
values; recurse into array elements; leave scalars untouched.  Removing a key
and recursing into the survivors commute per entry, so the single pass below
over the (unique-key) field list is the same function. -/
def cleanJson : Json → Json
  | .null => .null
  | .bool b => .bool b
  | .num n => .num n
  | .str s => .str s
  | .arr xs => .arr (cleanJsonList xs)
  | .obj fs => .obj (cleanJsonFields fs)

def cleanJsonList : List Json → List Json
  | [] => []
  | x :: xs => cleanJson x :: cleanJsonList xs

def cleanJsonFields : List (String × Json) → List (String × Json)
  | [] => []
  | (k, v) :: fs =>
    if forbiddenKey k then cleanJsonFields fs
    else (k, cleanJson v) :: cleanJsonFields fs

end

mutual

/-- `true` iff no forbidden JSON-Schema metadata key occurs at any object
depth of the value. -/
def noForbiddenKeys : Json → Bool
  | .null => true
  | .bool _ => true
  | .num _ => true
  | .str _ => true
  | .arr xs => noForbiddenKeysList xs
  | .obj fs => noForbiddenKeysFields fs

def noForbiddenKeysList : List Json → Bool
  | [] => true
  | x :: xs => noForbiddenKeys x && noForbiddenKeysList xs

def noForbiddenKeysFields : List (String × Json) → Bool
  | [] => true
  | (k, v) :: fs => !forbiddenKey k && noForbiddenKeys v && noForbiddenKeysFields fs

end

/-! ## Canonical message model (`src/models.rs` is not under `src/`)

Modelled from the spec: the canonical data model of spec section 3 together
with the field accesses visible in the four source files.  These types are
passive containers; all behaviour proved below lives in the translators. -/

/-- `crate::models::ImageSource`. -/
structure ImageSource where
  type : String
  media_type : Option String
  data : Option String
  url : Option String
deriving DecidableEq

/-- `crate::models::ContentBlock`.  Tool payload shapes are irrelevant to the
verified code paths (both translators drop the blocks wholesale), so they are
carried as opaque strings/JSON. -/
inductive ContentBlock where
  | text (text : String)
  | image (source : ImageSource)
  | thinking (thinking : String) (signature : Option String)
  | toolUse (id : String) (name : String) (input : Json)
  | toolResult (tool_use_id : String) (content : String)

/-- `crate::models::MessageContent`: a plain string or a block sequence. -/
inductive MessageContent where
  | text (s : String)
  | blocks (bs : List ContentBlock)

/-- A text block of a canonical system prompt. -/
structure SystemBlock where
  text : String
deriving DecidableEq

/-- `crate::models::SystemPrompt`. -/
inductive SystemPrompt where
  | text (s : String)
  | blocks (bs : List SystemBlock)
deriving DecidableEq

/-- `crate::models::Message`. -/
structure Message where
  role : String
  content : MessageContent

/-- `crate::models::Tool` as used by the Gemini translator:
`name` and `input_schema` are optional, `description` optional. -/
structure Tool where
  name : Option String
  description : Option String
  input_schema : Option Json

/-- `crate::models::AnthropicRequest` (spec section 3, field set as consumed by
`transform_openai_to_anthropic` and `GeminiProvider::transform_request`).
`max_tokens` is a `u32`. -/
structure AnthropicRequest where
  model : String
  messages : List Message
  max_tokens : Nat
  thinking : Option Json
  temperature : Option F32
  top_p : Option F32
  top_k : Option Int
  stop_sequences : Option (List String)
  stream : Option Bool
  metadata : Option Json
  system : Option SystemPrompt
  tools : Option (List Tool)

/-- `crate::providers::Usage` (u32 token counters). -/
structure Usage where
  input_tokens : Nat
  output_tokens : Nat
deriving DecidableEq

/-- `crate::providers::ProviderResponse` (canonical response, spec section 3). -/
structure ProviderResponse where
  id : String
  type : String
  role : String
  content : List ContentBlock
  model : String
  stop_reason : Option String
  stop_sequence : Option String
  usage : Usage

/-! ## OpenAI compatibility layer (`src/server/openai_compat.rs`) -/

/-- `OpenAIImageUrl`. -/
structure OpenAIImageUrl where
  url : String
deriving DecidableEq

/-- `OpenAIContentPart` (tagged `text` / `image_url`). -/
inductive OpenAIContentPart where
  | text (text : String)
  | imageUrl (image_url : OpenAIImageUrl)
deriving DecidableEq

/-- `OpenAIContent`: a plain string or an array of parts. -/
inductive OpenAIContent where
  | str (s : String)
  | parts (ps : List OpenAIContentPart)
deriving DecidableEq

/-- `OpenAIMessage`. -/
structure OpenAIMessage where
  role : String
  content : Option OpenAIContent
  name : Option String
deriving DecidableEq

/-- `OpenAIRequest`.  `tools`/`tool_choice` are carried but never read by the
translator (explicit TODO in the source). -/
structure OpenAIRequest where
  model : String
  messages : List OpenAIMessage
  max_tokens : Option Nat
  temperature : Option F32
  top_p : Option F32
  stop : Option (List String)
  stream : Option Bool
  tools : Option (List Json)
  tool_choice : Option Json

/-- `OpenAIResponseMessage`. -/
structure OpenAIResponseMessage where
  role : String
  content : Option String
deriving DecidableEq

/-- `OpenAIChoice`. -/
structure OpenAIChoice where
  index : Nat
  message : OpenAIResponseMessage
  finish_reason : Option String
deriving DecidableEq

/-- `OpenAIUsage` (u32 counters; the `total_tokens` sum is modelled exactly,
the inputs in practice stay far below `2^32`). -/
structure OpenAIUsage where
  prompt_tokens : Nat
  completion_tokens : Nat
  total_tokens : Nat
deriving DecidableEq

/-- `OpenAIResponse`.  `created` (Unix seconds, taken from the wall clock in
the source) is threaded through as an explicit parameter below. -/
structure OpenAIResponse where
  id : String
  object : String
  created : Nat
  model : String
  choices : List OpenAIChoice
  usage : OpenAIUsage
deriving DecidableEq

/-- `a.starts_with(b)` on char lists. -/
def leadsWith : List Char → List Char → Bool
  | [], _ => true
  | _ :: _, [] => false
  | a :: as, b :: bs => a == b && leadsWith as bs

/-- `str::starts_with` for string patterns. -/
def strStartsWith (s pat : String) : Bool := leadsWith pat.data s.data

/-- `haystack.contains(needle)` on char lists. -/
def hasSubstring (hay needle : List Char) : Bool :=
  match hay with
  | [] => needle.isEmpty
  | _ :: t => leadsWith needle hay || hasSubstring t needle

/-- `str::contains` for string patterns. -/
def containsSubstr (s sub : String) : Bool := hasSubstring s.data sub.data

/-- `url.find(',')`: split at the first comma, dropping it
(`&url[..idx]`, `&url[idx + 1..]`). -/
def breakAtComma : List Char → Option (List Char × List Char)
  | [] => none
  | c :: rest =>
    if c == ',' then some ([], rest)
    else (breakAtComma rest).map fun pr => (c :: pr.1, pr.2)

/-- String form of `breakAtComma`; `none` when the string has no comma. -/
def splitAtFirstComma (s : String) : Option (String × String) :=
  (breakAtComma s.data).map fun pr => (String.mk pr.1, String.mk pr.2)

/-- The data-URL header → `media_type` dispatch
(`src/server/openai_compat.rs` lines 140-150). -/
def mediaTypeOfHeader (header : String) : String :=
  if containsSubstr header "image/jpeg" then "image/jpeg"
  else if containsSubstr header "image/png" then "image/png"
  else if containsSubstr header "image/gif" then "image/gif"
  else if containsSubstr header "image/webp" then "image/webp"
  else "image/png"

/-- The text parts of an OpenAI content-part array (image parts dropped). -/
def textPartsOf (ps : List OpenAIContentPart) : List String :=
  ps.filterMap fun p => match p with
    | .text t => some t
    | .imageUrl _ => none

/-- Flattening of an OpenAI message content to plain text for the system
prompt: a string stays itself; an array keeps its text parts joined with
`"\n"` (`src/server/openai_compat.rs` lines 102-116). -/
def flattenOpenAIContent : OpenAIContent → String
  | .str s => s
  | .parts ps => String.intercalate "\n" (textPartsOf ps)

/-- Conversion of one OpenAI content part to a canonical block
(`src/server/openai_compat.rs` lines 127-176).  A `data:` URL without a comma
yields no block. -/
def convertPart : OpenAIContentPart → Option ContentBlock
  | .text t => some (.text t)
  | .imageUrl iu =>
    if strStartsWith iu.url "data:" then
      match splitAtFirstComma iu.url with
      | some (header, payload) =>
        some (.image { type := "base64", media_type := some (mediaTypeOfHeader header),
                       data := some payload, url := none })
      | none => none
    else
      some (.image { type := "url", media_type := none, data := none, url := some iu.url })

/-- Content of a canonical user/assistant message: absent content becomes
empty text; an all-dropped part array falls back to empty text
(`src/server/openai_compat.rs` lines 122-188). -/
def userAssistantContent : Option OpenAIContent → MessageContent
  | none => .text ""
  | some (.str t) => .text t
  | some (.parts ps) =>
    let blocks := ps.filterMap convertPart
    if blocks.isEmpty then .text "" else .blocks blocks

/-- The canonical message an OpenAI message contributes: system messages set
the system prompt instead, user/assistant messages convert, all other roles
are skipped with a warning. -/
def canonMsg (m : OpenAIMessage) : Option Message :=
  if m.role = "system" then none
  else if m.role = "user" ∨ m.role = "assistant" then
    some ⟨m.role, userAssistantContent m.content⟩
  else none

/-- One iteration of the message loop of `transform_openai_to_anthropic`
(`src/server/openai_compat.rs` lines 97-200): state is the accumulated
message vector and the current `system_prompt` option.  A system message with
content **overwrites** the system prompt; one without content leaves it. -/
def stepMsg (st : List Message × Option SystemPrompt) (m : OpenAIMessage) :
    List Message × Option SystemPrompt :=
  if m.role = "system" then
    match m.content with
    | some c => (st.1, some (.text (flattenOpenAIContent c)))
    | none => st
  else if m.role = "user" ∨ m.role = "assistant" then
    (st.1 ++ [⟨m.role, userAssistantContent m.content⟩], st.2)
  else st

/-- `transform_openai_to_anthropic` (`src/server/openai_compat.rs` lines
92-216).  The `Result` error branch never fires in the source; the `Except`
carrier mirrors the Rust signature. -/
def transform_openai_to_anthropic (req : OpenAIRequest) :
    Except String AnthropicRequest :=
  let st := req.messages.foldl stepMsg ([], none)
  .ok { model := req.model
        messages := st.1
        max_tokens := req.max_tokens.getD 4096
        thinking := none
        temperature := req.temperature
        top_p := req.top_p
        top_k := none
        stop_sequences := req.stop
        stream := req.stream
        metadata := none
        system := st.2
        tools := none }

/-- The last flattened system text contributed by a message list (later system
messages with content overwrite earlier ones; contentless ones are inert). -/
def sysStep (acc : Option String) (m : OpenAIMessage) : Option String :=
  if m.role = "system" then
    match m.content with
    | some c => some (flattenOpenAIContent c)
    | none => acc
  else acc

/-- Fold of `sysStep` from `none`. -/
def lastSystemText (msgs : List OpenAIMessage) : Option String :=
  msgs.foldl sysStep none

/-- The system prompt of a translation result (`none` on the dead error
branch). -/
def systemOf (r : Except String AnthropicRequest) : Option SystemPrompt :=
  match r with
  | .ok out => out.system
  | .error _ => none

/-- The text blocks of a canonical content sequence, in order. -/
def textBlocksOf (blocks : List ContentBlock) : List String :=
  blocks.filterMap fun b => match b with
    | .text t => some t
    | _ => none

/-- `transform_anthropic_to_openai` (`src/server/openai_compat.rs` lines
219-273) with the wall-clock `created` stamp as an explicit parameter. -/
def transform_anthropic_to_openai (resp : ProviderResponse) (model : String)
    (created : Nat) : OpenAIResponse :=
  let content := String.intercalate "\n" (textBlocksOf resp.content)
  let contentOpt := if content.isEmpty then none else some content
  let finish := resp.stop_reason.map fun reason =>
    match reason with
    | "end_turn" => "stop"
    | "max_tokens" => "length"
    | "stop_sequence" => "stop"
    | _ => "stop"
  { id := resp.id
    object := "chat.completion"
    created := created
    model := model
    choices := [{ index := 0
                  message := { role := resp.role, content := contentOpt }
                  finish_reason := finish }]
    usage := { prompt_tokens := resp.usage.input_tokens
               completion_tokens := resp.usage.output_tokens
               total_tokens := resp.usage.input_tokens + resp.usage.output_tokens } }

/-! ## Gemini translator (`src/providers/gemini.rs`) -/

/-- `GeminiPart` (untagged `text` / `inline_data`). -/
inductive GeminiPart where
  | text (text : String)
  | inlineData (mime_type : String) (data : String)
deriving DecidableEq

/-- `GeminiContent`. -/
structure GeminiContent where
  role : String
  parts : List GeminiPart
deriving DecidableEq

/-- `GeminiSystemInstruction`. -/
structure GeminiSystemInstruction where
  parts : List GeminiPart
deriving DecidableEq

/-- `GeminiGenerationConfig`.  `topK`/`maxOutputTokens` are `i32` in the wire
struct, modelled as `Int`. -/
structure GeminiGenerationConfig where
  temperature : Option F32
  topP : Option F32
  topK : Option Int
  maxOutputTokens : Option Int
  stopSequences : Option (List String)
deriving DecidableEq

/-- `GeminiFunctionDeclaration`. -/
structure GeminiFunctionDeclaration where
  name : String
  description : String
  parameters : Json

/-- `GeminiTool`. -/
structure GeminiTool where
  functionDeclarations : List GeminiFunctionDeclaration

/-- `GeminiRequest`. -/
structure GeminiRequest where
  contents : List GeminiContent
  systemInstruction : Option GeminiSystemInstruction
  generationConfig : Option GeminiGenerationConfig
  tools : Option (List GeminiTool)

/-- Rust `u32 as i32`: reinterpret the low 32 bits in two's complement. -/
def i32ofU32 (n : Nat) : Int :=
  if n % 4294967296 < 2147483648 then ((n % 4294967296 : Nat) : Int)
  else ((n % 4294967296 : Nat) : Int) - 4294967296

/-- System prompt flattening for Gemini (`src/providers/gemini.rs` lines
155-163): a block sequence joins the block texts with `"\n"`. -/
def flattenSystem : SystemPrompt → String
  | .text t => t
  | .blocks bs => String.intercalate "\n" (bs.map fun b => b.text)

/-- Canonical role → Gemini role (`user`→`user`, `assistant`→`model`, others
skipped). -/
def geminiRole (r : String) : Option String :=
  if r = "user" then some "user"
  else if r = "assistant" then some "model"
  else none

/-- Canonical content blocks → Gemini parts (`src/providers/gemini.rs` lines
184-218): text kept, images forwarded only when both `media_type` and `data`
are present, thinking demoted to text, tool blocks dropped. -/
def geminiPartsOfBlocks (bs : List ContentBlock) : List GeminiPart :=
  bs.filterMap fun b => match b with
    | .text t => some (.text t)
    | .image src =>
      match src.media_type, src.data with
      | some m, some d => some (.inlineData m d)
      | _, _ => none
    | .thinking th _ => some (.text th)
    | _ => none

/-- Canonical message content → Gemini parts. -/
def geminiParts : MessageContent → List GeminiPart
  | .text t => [.text t]
  | .blocks bs => geminiPartsOfBlocks bs

/-- `GeminiProvider::transform_request` (`src/providers/gemini.rs` lines
150-262).  The Rust function returns `Result` but has no error path, so the
model is total. -/
def transform_request (request : AnthropicRequest) : GeminiRequest :=
  { contents := request.messages.filterMap fun m =>
      (geminiRole m.role).map fun r => { role := r, parts := geminiParts m.content }
    systemInstruction := request.system.map fun s =>
      { parts := [.text (flattenSystem s)] }
    generationConfig := some
      { temperature := request.temperature
        topP := request.top_p
        topK := some 40
        maxOutputTokens := some (i32ofU32 request.max_tokens)
        stopSequences := request.stop_sequences }
    tools := request.tools.map fun anthropic_tools =>
      [{ functionDeclarations := anthropic_tools.filterMap fun tool =>
           tool.name.map fun n =>
             { name := n
               description := tool.description.getD ""
               parameters := cleanJson (tool.input_schema.getD .null) } }] }

/-! ## Provider registry (`src/providers/registry.rs`) -/

/-- `crate::providers::error::ProviderError` (file not under `src/`).
Modelled from the spec: error taxonomy of spec section 7; only `ConfigError`
and `ModelNotSupported` are produced by the registry code. -/
inductive ProviderError where
  | ConfigError (msg : String)
  | AuthError (msg : String)
  | ApiError (status : Nat) (message : String)
  | ModelNotSupported (model : String)
  | Transport (msg : String)
  | Decode (msg : String)
deriving DecidableEq

/-- `crate::providers::AuthType`. -/
inductive AuthType where
  | apiKey
  | oauth
deriving DecidableEq

/-- `crate::providers::ProviderConfig` (file not under `src/`).  Modelled from
the spec (section 3) plus the field reads in `from_configs`; `is_enabled()`
reads the `enabled` flag. -/
structure ProviderConfig where
  name : String
  provider_type : String
  auth_type : AuthType
  api_key : Option String
  oauth_provider : Option String
  base_url : Option String
  models : List String
  project_id : Option String
  location : Option String
  enabled : Bool
deriving DecidableEq

/-- Which wire dialect a `provider_type` tag constructs
(`src/providers/registry.rs` lines 51-186); `none` for unknown tags. -/
inductive ProviderKind where
  | openaiCompat
  | anthropicCompat
  | gemini
deriving DecidableEq

/-- The `provider_type` dispatch of `from_configs`: each known tag names the
backend variant it constructs; unknown tags yield `none` and fail the build. -/
def providerKindOf (t : String) : Option ProviderKind :=
  if t ∈ (["anthropic", "z.ai", "minimax", "zenmux", "kimi-coding"] : List String) then
    some .anthropicCompat
  else if t ∈ (["openai", "openrouter", "deepinfra", "novita", "baseten", "together",
                "fireworks", "groq", "nebius", "cerebras", "moonshot"] : List String) then
    some .openaiCompat
  else if t ∈ (["gemini", "vertex-ai"] : List String) then some .gemini
  else none

/-- A constructed backend, reduced to the state the registry claims depend on:
its dialect, its name and its configured model list.  `supports_model` is a
membership test against the model list for every backend (spec section 4.4;
`GeminiProvider::supports_model`, `src/providers/gemini.rs` lines 507-509). -/
structure Provider where
  kind : ProviderKind
  name : String
  models : List String
deriving DecidableEq

/-- `supports_model` (`src/providers/gemini.rs` lines 507-509 and spec section
4.4 for the other backends): membership in the configured model list. -/
def Provider.supports_model (p : Provider) (model : String) : Bool :=
  p.models.contains model

/-- `ProviderRegistry`: both `HashMap`s are modelled as association lists with
unique keys.  The scan order of `providers.values()` is unspecified for a Rust
`HashMap`; the list order stands in for one concrete iteration order, and no
claim below depends on which order is taken. -/
structure Registry where
  providers : List (String × Provider)
  model_to_provider : List (String × String)
deriving DecidableEq

/-- `ProviderRegistry::new`. -/
def Registry.new : Registry := ⟨[], []⟩

/-- `HashMap::get` on the association-list model. -/
def assocLookup {α : Type} : List (String × α) → String → Option α
  | [], _ => none
  | (k, v) :: rest, key => if k = key then some v else assocLookup rest key

/-- `HashMap::insert` on the association-list model: replace any existing
binding of the key. -/
def assocInsert (l : List (String × Provider)) (k : String) (v : Provider) :
    List (String × Provider) :=
  (l.filter fun p => p.1 ≠ k) ++ [(k, v)]

/-- The fallback scan of `get_provider_for_model` (`src/providers/registry.rs`
lines 213-220): first provider whose `supports_model` holds, else
`ModelNotSupported`. -/
def scanProviders (r : Registry) (model : String) : Except ProviderError Provider :=
  match r.providers.find? (fun pr => pr.2.supports_model model) with
  | some pr => .ok pr.2
  | none => .error (.ModelNotSupported model)

/-- `get_provider_for_model` (`src/providers/registry.rs` lines 205-221):
consult the `model_to_provider` index first — returning the named provider
**without** a `supports_model` check — and fall back to the linear scan when
the index misses or names an unregistered provider. -/
def get_provider_for_model (r : Registry) (model : String) :
    Except ProviderError Provider :=
  match assocLookup r.model_to_provider model with
  | some provider_name =>
    match assocLookup r.providers provider_name with
    | some p => .ok p
    | none => scanProviders r model
  | none => scanProviders r model

/-- The api-key resolution step of `from_configs` (`src/providers/registry.rs`
lines 35-48): ApiKey auth demands a **present** `api_key` (emptiness is not
checked); OAuth auth substitutes `oauth_provider.unwrap_or(name)`.  The source
error message carries the provider name in quotes; the quotes are elided
here. -/
def resolveApiKey (c : ProviderConfig) : Except ProviderError String :=
  match c.auth_type with
  | .apiKey =>
    match c.api_key with
    | some k => .ok k
    | none => .error (.ConfigError ("Provider " ++ c.name ++ " requires api_key for ApiKey auth"))
  | .oauth => .ok (c.oauth_provider.getD c.name)

/-- The provider a known tag constructs for a config entry.  Base URLs, HTTP
clients, token stores and custom headers do not influence `supports_model` or
routing and are not carried. -/
def mkProvider (kind : ProviderKind) (c : ProviderConfig) : Provider :=
  { kind := kind, name := c.name, models := c.models }

/-- The loop of `from_configs` (`src/providers/registry.rs` lines 28-194):
skip disabled entries, resolve the api key, dispatch on `provider_type`
(unknown tags fail with `ConfigError`), register the provider under the config
name.  `model_to_provider` is never written. -/
def fromConfigsAux (r : Registry) : List ProviderConfig → Except ProviderError Registry
  | [] => .ok r
  | c :: rest =>
    if c.enabled = false then fromConfigsAux r rest
    else
      match resolveApiKey c with
      | .error e => .error e
      | .ok _ =>
        match providerKindOf c.provider_type with
        | some kind =>
          fromConfigsAux { r with providers := assocInsert r.providers c.name (mkProvider kind c) } rest
        | none => .error (.ConfigError ("Unknown provider type: " ++ c.provider_type))

/-- `ProviderRegistry::from_configs` (`src/providers/registry.rs` lines
25-197).  The `token_store` argument is only threaded into backends and never
inspected; it is modelled by an opaque option. -/
def from_configs (configs : List ProviderConfig) (_token_store : Option Unit) :
    Except ProviderError Registry :=
  fromConfigsAux Registry.new configs

/-- `true` exactly on `Err(ProviderError::ConfigError(_))`. -/
def isConfigErrorResult : Except ProviderError Registry → Bool
  | .error (.ConfigError _) => true
  | _ => false

/-! ## SHA-256 (the `sha2` crate as used by `PKCEVerifier::generate`)

Bytes are `Nat < 256`, 32-bit words are `Nat < 2^32` with explicit masking. -/

/-- 32-bit right rotation. -/
def rotr32 (n x : Nat) : Nat :=
  ((x >>> n) ||| (x <<< (32 - n))) % 4294967296

/-- The SHA-256 round constants (FIPS 180-4, written in decimal). -/
def sha256K : List Nat :=
  [1116352408, 1899447441, 3049323471, 3921009573, 961987163, 1508970993,
   2453635748, 2870763221, 3624381080, 310598401, 607225278, 1426881987,
   1925078388, 2162078206, 2614888103, 3248222580, 3835390401, 4022224774,
   264347078, 604807628, 770255983, 1249150122, 1555081692, 1996064986,
   2554220882, 2821834349, 2952996808, 3210313671, 3336571891, 3584528711,
   113926993, 338241895, 666307205, 773529912, 1294757372, 1396182291,
   1695183700, 1986661051, 2177026350, 2456956037, 2730485921, 2820302411,
   3259730800, 3345764771, 3516065817, 3600352804, 4094571909, 275423344,
   430227734, 506948616, 659060556, 883997877, 958139571, 1322822218,
   1537002063, 1747873779, 1955562222, 2024104815, 2227730452, 2361852424,
   2428436474, 2756734187, 3204031479, 3329325298]

/-- The SHA-256 initial hash value (FIPS 180-4, written in decimal). -/
def sha256H0 : List Nat :=
  [1779033703, 3144134277, 1013904242, 2773480762,
   1359893119, 2600822924, 528734635, 1541459225]

/-- Big-endian 8-byte encoding of a bit length. -/
def be64 (n : Nat) : List Nat :=
  (List.range 8).map fun i => (n >>> (8 * (7 - i))) % 256

/-- Big-endian 4-byte encoding of a 32-bit word. -/
def be32 (n : Nat) : List Nat :=
  [(n >>> 24) % 256, (n >>> 16) % 256, (n >>> 8) % 256, n % 256]

/-- SHA-256 padding: `0x80`, zeros to 56 mod 64, 8-byte big-endian bit
length. -/
def sha256Pad (msg : List Nat) : List Nat :=
  msg ++ [0x80] ++ List.replicate ((119 - msg.length % 64) % 64) 0 ++ be64 (8 * msg.length)

/-- Split a byte list into 64-byte blocks, with a fuel argument bounding the
number of blocks (structural recursion, so the kernel can evaluate it; any
fuel at least `l.length` yields all blocks since each step consumes 64
bytes). -/
def chunksGo : Nat → List Nat → List (List Nat)
  | _, [] => []
  | 0, _ :: _ => []
  | fuel + 1, b :: rest => (b :: rest).take 64 :: chunksGo fuel ((b :: rest).drop 64)

/-- Split a byte list into 64-byte blocks. -/
def chunks64 (l : List Nat) : List (List Nat) := chunksGo l.length l

/-- Big-endian 32-bit words of a byte list. -/
def bytesToWords : List Nat → List Nat
  | b0 :: b1 :: b2 :: b3 :: rest =>
    (b0 * 16777216 + b1 * 65536 + b2 * 256 + b3) :: bytesToWords rest
  | _ => []

/-- Message-schedule extension: prepend `fuel` new words onto the reversed
schedule. -/
def scheduleAux : Nat → List Nat → List Nat
  | 0, rev => rev
  | fuel + 1, rev =>
    let w2 := rev.getD 1 0
    let w7 := rev.getD 6 0
    let w15 := rev.getD 14 0
    let w16 := rev.getD 15 0
    let s0 := (rotr32 7 w15) ^^^ (rotr32 18 w15) ^^^ (w15 >>> 3)
    let s1 := (rotr32 17 w2) ^^^ (rotr32 19 w2) ^^^ (w2 >>> 10)
    scheduleAux fuel (((w16 + s0 + w7 + s1) % 4294967296) :: rev)

/-- The SHA-256 working variables. -/
structure Sha256State where
  a : Nat
  b : Nat
  c : Nat
  d : Nat
  e : Nat
  f : Nat
  g : Nat
  h : Nat

/-- One compression round. -/
def sha256Round (st : Sha256State) (kw : Nat × Nat) : Sha256State :=
  let bigS1 := (rotr32 6 st.e) ^^^ (rotr32 11 st.e) ^^^ (rotr32 25 st.e)
  let ch := (st.e &&& st.f) ^^^ ((st.e ^^^ 4294967295) &&& st.g)
  let temp1 := (st.h + bigS1 + ch + kw.1 + kw.2) % 4294967296
  let bigS0 := (rotr32 2 st.a) ^^^ (rotr32 13 st.a) ^^^ (rotr32 22 st.a)
  let maj := (st.a &&& st.b) ^^^ (st.a &&& st.c) ^^^ (st.b &&& st.c)
  let temp2 := (bigS0 + maj) % 4294967296
  { a := (temp1 + temp2) % 4294967296
    b := st.a
    c := st.b
    d := st.c
    e := (st.d + temp1) % 4294967296
    f := st.e
    g := st.f
    h := st.g }

/-- Process one 64-byte block against the running hash (eight words). -/
def sha256Block (hs : List Nat) (block : List Nat) : List Nat :=
  let w0 := bytesToWords block
  let w := (scheduleAux 48 w0.reverse).reverse
  let init : Sha256State :=
    { a := hs.getD 0 0, b := hs.getD 1 0, c := hs.getD 2 0, d := hs.getD 3 0,
      e := hs.getD 4 0, f := hs.getD 5 0, g := hs.getD 6 0, h := hs.getD 7 0 }
  let fin := (sha256K.zip w).foldl sha256Round init
  [(hs.getD 0 0 + fin.a) % 4294967296, (hs.getD 1 0 + fin.b) % 4294967296,
   (hs.getD 2 0 + fin.c) % 4294967296, (hs.getD 3 0 + fin.d) % 4294967296,
   (hs.getD 4 0 + fin.e) % 4294967296, (hs.getD 5 0 + fin.f) % 4294967296,
   (hs.getD 6 0 + fin.g) % 4294967296, (hs.getD 7 0 + fin.h) % 4294967296]

/-- SHA-256 digest (32 bytes) of a byte list. -/
def sha256 (msg : List Nat) : List Nat :=
  (((chunks64 (sha256Pad msg)).foldl sha256Block sha256H0).map be32).flatten

/-! ## base64url without padding (`base64::URL_SAFE_NO_PAD`) -/

/-- The base64url alphabet. -/
def b64Alphabet : List Char :=
  "ABCDEFGHIJKLMNOPQRSTUVWXYZabcdefghijklmnopqrstuvwxyz0123456789-_".data

/-- Character for a 6-bit group. -/
def b64Char (n : Nat) : Char := b64Alphabet.getD n 'A'

/-- base64url-no-pad encoding, character list form. -/
def b64urlChars : List Nat → List Char
  | [] => []
  | [b0] => [b64Char (b0 >>> 2), b64Char ((b0 &&& 3) <<< 4)]
  | [b0, b1] =>
    [b64Char (b0 >>> 2), b64Char (((b0 &&& 3) <<< 4) ||| (b1 >>> 4)),
     b64Char ((b1 &&& 15) <<< 2)]
  | b0 :: b1 :: b2 :: rest =>
    b64Char (b0 >>> 2) :: b64Char (((b0 &&& 3) <<< 4) ||| (b1 >>> 4)) ::
    b64Char (((b1 &&& 15) <<< 2) ||| (b2 >>> 6)) :: b64Char (b2 &&& 63) :: b64urlChars rest

/-- `URL_SAFE_NO_PAD.encode`. -/
def b64url (bs : List Nat) : String := String.mk (b64urlChars bs)

/-- UTF-8 bytes of a string.  Every string this development feeds through is
ASCII (base64url output), where UTF-8 bytes coincide with code points. -/
def utf8Bytes (s : String) : List Nat := s.data.map Char.toNat

/-! ## OAuth client (`src/auth/oauth.rs`) -/

/-- `PKCEVerifier`. -/
structure PKCEVerifier where
  verifier : String
  challenge : String
deriving DecidableEq

/-- `PKCEVerifier::generate` (`src/auth/oauth.rs` lines 19-32) with the 32
drawn random bytes as an explicit argument: the verifier is their
base64url-no-pad encoding, the challenge the base64url-no-pad encoding of the
SHA-256 of the verifier bytes. -/
def PKCEVerifier.generate (randomBytes : List Nat) : PKCEVerifier :=
  let verifier := b64url randomBytes
  let challenge := b64url (sha256 (utf8Bytes verifier))
  { verifier := verifier, challenge := challenge }

/-- `OAuthConfig`. -/
structure OAuthConfig where
  client_id : String
  auth_url : String
  token_url : String
  redirect_uri : String
  scopes : List String
deriving DecidableEq

/-- `OAuthConfig::anthropic` (`src/auth/oauth.rs` lines 54-66). -/
def OAuthConfig.anthropic : OAuthConfig :=
  { client_id := "9d1c250a-e61b-44d9-88ed-5944d1962f5e"
    auth_url := "https://claude.ai/oauth/authorize"
    token_url := "https://console.anthropic.com/v1/oauth/token"
    redirect_uri := "https://console.anthropic.com/oauth/code/callback"
    scopes := ["org:create_api_key", "user:profile", "user:inference"] }

/-- `OAuthConfig::openai_codex` (`src/auth/oauth.rs` lines 82-95). -/
def OAuthConfig.openai_codex : OAuthConfig :=
  { client_id := "app_EMoamEEZ73f0CkXaXp7hrann"
    auth_url := "https://auth.openai.com/oauth/authorize"
    token_url := "https://auth.openai.com/oauth/token"
    redirect_uri := "http://localhost:1455/auth/callback"
    scopes := ["openid", "profile", "email", "offline_access"] }

/-- A lowercase hexadecimal digit character. -/
def hexDigit (n : Nat) : Char :=
  if n < 10 then Char.ofNat (48 + n) else Char.ofNat (97 + (n - 10))

/-- `format!("{:02x}", b)` for a `u8`: two lowercase hex digits. -/
def hexByteChars (b : Nat) : List Char :=
  [hexDigit ((b / 16) % 16), hexDigit (b % 16)]

/-- The hex state string of the Codex branch: each byte formatted `{:02x}` and
concatenated. -/
def hexEncode (bs : List Nat) : String := String.mk ((bs.map hexByteChars).flatten)

/-- `true` on `0-9a-f`. -/
def isLowerHex (c : Char) : Bool :=
  (48 ≤ c.toNat && c.toNat ≤ 57) || (97 ≤ c.toNat && c.toNat ≤ 102)

/-- `OAuthClient::get_authorization_url` (`src/auth/oauth.rs` lines 116-163),
reduced to the query-pair list appended onto the auth URL; the PKCE pair and
the 16 random state bytes of the Codex branch are explicit arguments.  The
Codex dialect (keyed on the literal client id) uses a random hex state and the
simplified-flow parameters; every other client id uses the Anthropic dialect,
whose state **is** the PKCE verifier and which carries the literal
`code=true`. -/
def get_authorization_url (config : OAuthConfig) (pkce : PKCEVerifier)
    (stateBytes : List Nat) : List (String × String) :=
  if config.client_id = "app_EMoamEEZ73f0CkXaXp7hrann" then
    [("response_type", "code"),
     ("client_id", config.client_id),
     ("redirect_uri", config.redirect_uri),
     ("scope", String.intercalate " " config.scopes),
     ("code_challenge", pkce.challenge),
     ("code_challenge_method", "S256"),
     ("state", hexEncode stateBytes),
     ("id_token_add_organizations", "true"),
     ("codex_cli_simplified_flow", "true"),
     ("originator", "codex_cli_rs")]
  else
    [("code", "true"),
     ("client_id", config.client_id),
     ("response_type", "code"),
     ("redirect_uri", config.redirect_uri),
     ("scope", String.intercalate " " config.scopes),
     ("code_challenge", pkce.challenge),
     ("code_challenge_method", "S256"),
     ("state", pkce.verifier)]

/-- The values of the `state` query parameter of a pair list. -/
def stateParams (q : List (String × String)) : List String :=
  (q.filter fun p => p.1 == "state").map fun p => p.2

/-- `crate::auth::token_store::OAuthToken`.  Modelled from the spec:
`token_store.rs` is not under `src/`; the field list follows spec section 3
(`OAuthToken`), whose `project_id` field is also read by
`src/providers/gemini.rs` line 348 (`token.project_id`). -/
structure OAuthToken where
  provider_id : String
  access_token : String
  refresh_token : String
  expires_at : Int
  enterprise_url : Option String
  project_id : Option String
deriving DecidableEq

/-- The `{access_token, refresh_token, expires_in}` body of a successful
token-refresh response. -/
structure TokenResponse where
  access_token : String
  refresh_token : String
  expires_in : Int
deriving DecidableEq

/-- The token written by `OAuthClient::refresh_token` on success
(`src/auth/oauth.rs` lines 329-340): new access/refresh tokens,
`expires_at = now + expires_in`, `enterprise_url` carried from the prior
token.  The struct literal in the source names no `project_id` field at all,
so the stored `project_id` is **not** carried forward; the saved token has
none. -/
def refreshTokenUpdate (existing : OAuthToken) (resp : TokenResponse)
    (now : Int) (provider_id : String) : OAuthToken :=
  { provider_id := provider_id
    access_token := resp.access_token
    refresh_token := resp.refresh_token
    expires_at := now + resp.expires_in
    enterprise_url := existing.enterprise_url
    project_id := none }

/-- The system-prompt component of one `stepMsg` iteration, in isolation. -/
def sysPromptStep (acc : Option SystemPrompt) (m : OpenAIMessage) : Option SystemPrompt :=
  if m.role = "system" then
    match m.content with
    | some c => some (.text (flattenOpenAIContent c))
    | none => acc
  else acc

/-!
# Theorems
-/

/-! ## C7: JSON-Schema cleaning -/

mutual

theorem cleanJson_noForbidden : (j : Json) → noForbiddenKeys (cleanJson j) = true
  | .null => rfl
  | .bool _ => rfl
  | .num _ => rfl
  | .str _ => rfl
  | .arr xs => cleanJsonList_noForbidden xs
  | .obj fs => cleanJsonFields_noForbidden fs

theorem cleanJsonList_noForbidden :
    (xs : List Json) → noForbiddenKeysList (cleanJsonList xs) = true
  | [] => rfl
  | x :: xs => by
    simp only [cleanJsonList, noForbiddenKeysList, Bool.and_eq_true]
    exact ⟨cleanJson_noForbidden x, cleanJsonList_noForbidden xs⟩

theorem cleanJsonFields_noForbidden :
    (fs : List (String × Json)) → noForbiddenKeysFields (cleanJsonFields fs) = true
  | [] => rfl
  | (k, v) :: fs => by
    by_cases h : forbiddenKey k = true
    · simp only [cleanJsonFields, h, if_true]
      exact cleanJsonFields_noForbidden fs
    · have h0 : forbiddenKey k = false := by revert h; cases forbiddenKey k <;> simp
      simp only [cleanJsonFields, if_neg h, noForbiddenKeysFields, h0, Bool.not_false,
        Bool.true_and, Bool.and_eq_true]
      exact ⟨cleanJson_noForbidden v, cleanJsonFields_noForbidden fs⟩

end

mutual

theorem cleanJson_idem : (j : Json) → cleanJson (cleanJson j) = cleanJson j
  | .null => rfl
  | .bool _ => rfl
  | .num _ => rfl
  | .str _ => rfl
  | .arr xs => by simp only [cleanJson]; rw [cleanJsonList_idem xs]
  | .obj fs => by simp only [cleanJson]; rw [cleanJsonFields_idem fs]

theorem cleanJsonList_idem :
    (xs : List Json) → cleanJsonList (cleanJsonList xs) = cleanJsonList xs
  | [] => rfl
  | x :: xs => by
    simp only [cleanJsonList]
    rw [cleanJson_idem x, cleanJsonList_idem xs]

theorem cleanJsonFields_idem :
    (fs : List (String × Json)) → cleanJsonFields (cleanJsonFields fs) = cleanJsonFields fs
  | [] => rfl
  | (k, v) :: fs => by
    by_cases h : forbiddenKey k = true
    · simp only [cleanJsonFields, h, if_true]
      exact cleanJsonFields_idem fs
    · simp only [cleanJsonFields, if_neg h]
      rw [cleanJson_idem v, cleanJsonFields_idem fs]

end

mutual

theorem cleanJson_id_of_clean : (j : Json) → noForbiddenKeys j = true → cleanJson j = j
  | .null, _ => rfl
  | .bool _, _ => rfl
  | .num _, _ => rfl
  | .str _, _ => rfl
  | .arr xs, h => by
    simp only [cleanJson]
    rw [cleanJsonList_id_of_clean xs h]
  | .obj fs, h => by
    simp only [cleanJson]
    rw [cleanJsonFields_id_of_clean fs h]

theorem cleanJsonList_id_of_clean :
    (xs : List Json) → noForbiddenKeysList xs = true → cleanJsonList xs = xs
  | [], _ => rfl
  | x :: xs, h => by
    simp only [noForbiddenKeysList, Bool.and_eq_true] at h
    simp only [cleanJsonList]
    rw [cleanJson_id_of_clean x h.1, cleanJsonList_id_of_clean xs h.2]

theorem cleanJsonFields_id_of_clean :
    (fs : List (String × Json)) → noForbiddenKeysFields fs = true → cleanJsonFields fs = fs
  | [], _ => rfl
  | (k, v) :: fs, h => by
    simp only [noForbiddenKeysFields, Bool.and_eq_true, Bool.not_eq_true'] at h
    have hne : ¬ forbiddenKey k = true := by simp [h.1.1]
    simp only [cleanJsonFields, if_neg hne]
    rw [cleanJson_id_of_clean v h.1.2, cleanJsonFields_id_of_clean fs h.2]

end

/-- Spec scenario S4: the sample schema loses exactly `$schema`, the nested
`$ref` and `definitions`. -/
theorem clean_schema_sample :
    cleanJson (.obj [("$schema", .str "x"), ("type", .str "object"),
      ("properties", .obj [("a", .obj [("$ref", .str "#"), ("type", .str "string")])]),
      ("definitions", .obj [("z", .obj [])])])
    = .obj [("type", .str "object"),
      ("properties", .obj [("a", .obj [("type", .str "string")])])] := rfl

/-- C7: `clean_json_schema` removes exactly the forbidden metadata keys at
every object depth with no other transformation — it is the identity on
values already free of them — it is idempotent, and after one pass no
forbidden key remains at any depth. -/
theorem clean_json_schema_idempotent_complete (j : Json) :
    cleanJson (cleanJson j) = cleanJson j ∧
    noForbiddenKeys (cleanJson j) = true ∧
    (noForbiddenKeys j = true → cleanJson j = j) :=
  ⟨cleanJson_idem j, cleanJson_noForbidden j, cleanJson_id_of_clean j⟩

/-- Witness for C7 at the concrete already-clean schema
`{"type":"object","properties":{"a":{"type":"string"}}}`. -/
theorem clean_json_schema_idempotent_complete_witness :
    noForbiddenKeys (.obj [("type", .str "object"),
        ("properties", .obj [("a", .obj [("type", .str "string")])])]) = true ∧
    cleanJson (.obj [("type", .str "object"),
        ("properties", .obj [("a", .obj [("type", .str "string")])])])
      = .obj [("type", .str "object"),
        ("properties", .obj [("a", .obj [("type", .str "string")])])] :=
  ⟨rfl, (clean_json_schema_idempotent_complete _).2.2 rfl⟩

/-! ## C4: token refresh -/

/-- C4 (code bug): evaluating the refresh update of `refresh_token` at a
stored token carrying a `project_id` shows the new token keeps
`access_token`/`refresh_token` from the response, `expires_at = now +
expires_in` and the prior `enterprise_url` — but its `project_id` is `none`,
not the prior `some "my-gcp-project"` the spec requires: the source struct
literal omits the field entirely, even though the Gemini Code Assist path
(`src/providers/gemini.rs` line 348) later reads `token.project_id` from the
store. -/
theorem refresh_token_drops_project_id :
    refreshTokenUpdate
        ⟨"gemini", "a1", "r1", 1000, some "https://enterprise.example", some "my-gcp-project"⟩
        ⟨"a2", "r2", 3600⟩ 5000 "gemini"
      = ⟨"gemini", "a2", "r2", 8600, some "https://enterprise.example", none⟩ ∧
    (none : Option String) ≠ some "my-gcp-project" :=
  ⟨rfl, by decide⟩

/-! ## C9: Gemini generation config -/

/-- C9 (amended): the Gemini `generationConfig` carries over `temperature` and
`top_p`, sets `stopSequences = stop_sequences`, sets `topK` to the hard
default `40` regardless of the request (no field of the config depends on
`top_k`), and sets `maxOutputTokens` to `max_tokens` cast `u32 → i32` — equal
to `max_tokens` whenever `max_tokens < 2^31`, two's-complement wrapped
otherwise. -/
theorem gemini_generation_config (req : AnthropicRequest) :
    (transform_request req).generationConfig = some
      { temperature := req.temperature
        topP := req.top_p
        topK := some 40
        maxOutputTokens := some (i32ofU32 req.max_tokens)
        stopSequences := req.stop_sequences } ∧
    (req.max_tokens < 2147483648 → i32ofU32 req.max_tokens = (req.max_tokens : Int)) ∧
    (∀ k, transform_request { req with top_k := k } = transform_request req) := by
  refine ⟨rfl, ?_, fun k => rfl⟩
  intro h
  have hm : req.max_tokens % 4294967296 = req.max_tokens := Nat.mod_eq_of_lt (by omega)
  simp [i32ofU32, hm, h]

/-- Witness for C9 at a plain request with `max_tokens = 4096`. -/
theorem gemini_generation_config_witness :
    (transform_request ⟨"gemini-2.5-pro", [], 4096, none, none, none, none, none,
        none, none, none, none⟩).generationConfig = some
      { temperature := none, topP := none, topK := some 40,
        maxOutputTokens := some (i32ofU32 4096), stopSequences := none } ∧
    i32ofU32 4096 = (4096 : Int) := by
  have h := gemini_generation_config
    ⟨"gemini-2.5-pro", [], 4096, none, none, none, none, none, none, none, none, none⟩
  exact ⟨h.1, h.2.1 (by norm_num)⟩

/-- C9 counterexample: at `max_tokens = 2^31` (a legal `u32`) the produced
`maxOutputTokens` is the wrapped `-2^31`, not `max_tokens`. -/
theorem gemini_max_tokens_cast_counterexample :
    ((transform_request ⟨"gemini-2.5-pro", [], 2147483648, none, none, none, none, none,
        none, none, none, none⟩).generationConfig.map fun g => g.maxOutputTokens)
      = some (some (-2147483648)) ∧
    some (some (-2147483648 : Int)) ≠ some (some ((2147483648 : Nat) : Int)) := by
  constructor
  · rfl
  · decide

/-! ## The OpenAI → canonical translator (C1, C8, C10) -/

/-- The message loop of `transform_openai_to_anthropic`, characterised: the
accumulated messages are the `canonMsg` image of the inputs, and the system
slot evolves by `sysPromptStep` alone. -/
theorem foldl_stepMsg (msgs : List OpenAIMessage) (ms : List Message)
    (s : Option SystemPrompt) :
    msgs.foldl stepMsg (ms, s) =
      (ms ++ msgs.filterMap canonMsg, msgs.foldl sysPromptStep s) := by
  induction msgs generalizing ms s with
  | nil => simp
  | cons m rest ih =>
    simp only [List.foldl_cons, List.filterMap_cons]
    by_cases hsys : m.role = "system"
    · cases hmc : m.content with
      | none => simp [stepMsg, canonMsg, sysPromptStep, hsys, hmc, ih]
      | some c => simp [stepMsg, canonMsg, sysPromptStep, hsys, hmc, ih]
    · by_cases hua : m.role = "user" ∨ m.role = "assistant"
      · simp [stepMsg, canonMsg, sysPromptStep, hsys, hua, ih]
      · simp [stepMsg, canonMsg, sysPromptStep, hsys, hua, ih]

/-- The system slot of the loop tracks `lastSystemText`. -/
theorem foldl_sysPromptStep (msgs : List OpenAIMessage) (os : Option String)
    (s : Option SystemPrompt) (hs : s = os.map SystemPrompt.text) :
    msgs.foldl sysPromptStep s = (msgs.foldl sysStep os).map SystemPrompt.text := by
  induction msgs generalizing os s with
  | nil => simpa using hs
  | cons m rest ih =>
    simp only [List.foldl_cons]
    apply ih (sysStep os m)
    subst hs
    by_cases hsys : m.role = "system"
    · cases hmc : m.content with
      | none => simp [sysPromptStep, sysStep, hsys, hmc]
      | some c => simp [sysPromptStep, sysStep, hsys, hmc]
    · simp [sysPromptStep, sysStep, hsys]

/-- Closed form of `transform_openai_to_anthropic`: it always succeeds, its
messages are the `canonMsg` image of the input messages, and its system
prompt is the **last** flattened system text. -/
theorem transform_openai_spec (req : OpenAIRequest) :
    transform_openai_to_anthropic req = .ok
      { model := req.model
        messages := req.messages.filterMap canonMsg
        max_tokens := req.max_tokens.getD 4096
        thinking := none
        temperature := req.temperature
        top_p := req.top_p
        top_k := none
        stop_sequences := req.stop
        stream := req.stream
        metadata := none
        system := (lastSystemText req.messages).map SystemPrompt.text
        tools := none } := by
  unfold transform_openai_to_anthropic
  rw [foldl_stepMsg, foldl_sysPromptStep req.messages none none rfl]
  rfl

/-- C1 (amended): every system message with content is flattened to text
(array parts joined with `"\n"`), but when the input contains multiple system
messages the canonical `request.system` is the **last** one's flattened text —
later system messages overwrite earlier ones instead of concatenating. -/
theorem openai_system_last_message_wins (req : OpenAIRequest) :
    ∃ out, transform_openai_to_anthropic req = .ok out ∧
      out.system = (lastSystemText req.messages).map SystemPrompt.text :=
  ⟨_, transform_openai_spec req, rfl⟩

/-- C1 counterexample: on two system messages `"a"` then `"b"` the resulting
system prompt is `Text "b"`, not the claimed concatenation `Text "a\nb"`. -/
theorem openai_two_system_messages_overwrite :
    systemOf (transform_openai_to_anthropic
        ⟨"m", [⟨"system", some (.str "a"), none⟩, ⟨"system", some (.str "b"), none⟩],
         none, none, none, none, none, none, none⟩)
      = some (SystemPrompt.text "b") ∧
    some (SystemPrompt.text "b") ≠ some (SystemPrompt.text "a\nb") := by
  constructor
  · rfl
  · decide

/-- C10: `transform_openai_to_anthropic` returns `Ok` on every input — the
error branch of its `Result` is unreachable — with the messages being exactly
the converted user/assistant messages in order: roles other than
system/user/assistant contribute nothing, and a user/assistant message
without content becomes empty text. -/
theorem transform_openai_total (req : OpenAIRequest) :
    (∃ out, transform_openai_to_anthropic req = .ok out ∧
       out.messages = req.messages.filterMap canonMsg) ∧
    (∀ m : OpenAIMessage,
       m.role ∉ (["system", "user", "assistant"] : List String) → canonMsg m = none) ∧
    (∀ role nm, role = "user" ∨ role = "assistant" →
       canonMsg ⟨role, none, nm⟩ = some ⟨role, .text ""⟩) := by
  refine ⟨⟨_, transform_openai_spec req, rfl⟩, ?_, ?_⟩
  · intro m hm
    simp only [List.mem_cons, List.mem_singleton, not_or] at hm
    simp [canonMsg, hm.1, hm.2.1, hm.2.2]
  · intro role nm h
    have hne : role ≠ "system" := by rcases h with h | h <;> subst h <;> decide
    simp [canonMsg, hne, h, userAssistantContent]

/-- Witness for C10 on a request mixing a contentless user message and a
`tool` message. -/
theorem transform_openai_total_witness :
    (∃ out, transform_openai_to_anthropic
        ⟨"m", [⟨"user", none, none⟩, ⟨"tool", none, none⟩],
         none, none, none, none, none, none, none⟩ = .ok out) ∧
    canonMsg ⟨"tool", none, none⟩ = none ∧
    canonMsg ⟨"user", none, none⟩ = some ⟨"user", MessageContent.text ""⟩ := by
  have h := transform_openai_total
    ⟨"m", [⟨"user", none, none⟩, ⟨"tool", none, none⟩],
     none, none, none, none, none, none, none⟩
  obtain ⟨out, hout, -⟩ := h.1
  exact ⟨⟨out, hout⟩, h.2.1 ⟨"tool", none, none⟩ (by decide), h.2.2 "user" none (Or.inl rfl)⟩

/-- C8: the canonical → OpenAI response direction concatenates exactly the
`Text` blocks with `"\n"` (non-text blocks dropped, empty concatenation →
`null` content), and feeding such an assistant text back through the OpenAI →
canonical direction preserves it verbatim. -/
theorem openai_response_text_roundtrip (resp : ProviderResponse) (model : String)
    (created : Nat) (req : OpenAIRequest) (s : String)
    (hmsgs : req.messages = [⟨"assistant", some (.str s), none⟩]) :
    ((transform_anthropic_to_openai resp model created).choices.map
        fun ch => ch.message.content)
      = [if (String.intercalate "\n" (textBlocksOf resp.content)).isEmpty then none
         else some (String.intercalate "\n" (textBlocksOf resp.content))] ∧
    ∃ out, transform_openai_to_anthropic req = .ok out ∧
      out.messages = [⟨"assistant", MessageContent.text s⟩] := by
  refine ⟨rfl, ⟨_, transform_openai_spec req, ?_⟩⟩
  simp [hmsgs, canonMsg, userAssistantContent]

/-- Witness for C8: a response with two text blocks around an image maps to
content `"hi\nthere"`, and `"hello"` survives the round trip. -/
theorem openai_response_text_roundtrip_witness :
    ((transform_anthropic_to_openai
        ⟨"id0", "message", "assistant",
         [.text "hi", .image ⟨"url", none, none, some "https://img.example"⟩, .text "there"],
         "m", some "end_turn", none, ⟨1, 2⟩⟩ "m" 0).choices.map
        fun ch => ch.message.content)
      = [some "hi\nthere"] ∧
    ∃ out, transform_openai_to_anthropic
        ⟨"m", [⟨"assistant", some (.str "hello"), none⟩],
         none, none, none, none, none, none, none⟩ = .ok out ∧
      out.messages = [⟨"assistant", MessageContent.text "hello"⟩] := by
  have h := openai_response_text_roundtrip
    ⟨"id0", "message", "assistant",
     [.text "hi", .image ⟨"url", none, none, some "https://img.example"⟩, .text "there"],
     "m", some "end_turn", none, ⟨1, 2⟩⟩ "m" 0
    ⟨"m", [⟨"assistant", some (.str "hello"), none⟩],
     none, none, none, none, none, none, none⟩ "hello" rfl
  refine ⟨?_, h.2⟩
  rw [h.1]
  rfl

/-! ## Provider registry (C2, C3) -/

/-- The registry loop never writes the `model_to_provider` index. -/
theorem fromConfigsAux_index (cfgs : List ProviderConfig) :
    ∀ r0 r : Registry, fromConfigsAux r0 cfgs = .ok r →
      r.model_to_provider = r0.model_to_provider := by
  induction cfgs with
  | nil =>
    intro r0 r h
    simp only [fromConfigsAux] at h
    cases h
    rfl
  | cons c rest ih =>
    intro r0 r h
    unfold fromConfigsAux at h
    by_cases he : c.enabled = false
    · rw [if_pos he] at h
      exact ih _ _ h
    · rw [if_neg he] at h
      cases hk : resolveApiKey c with
      | error e => rw [hk] at h; cases h
      | ok key =>
        rw [hk] at h
        cases hp : providerKindOf c.provider_type with
        | none => rw [hp] at h; cases h
        | some kind =>
          rw [hp] at h
          exact ih { r0 with
            providers := assocInsert r0.providers c.name (mkProvider kind c) } r h

/-- A registry built by `from_configs` has an empty model index: the fast
path of `get_provider_for_model` is dead code. -/
theorem from_configs_index_empty (configs : List ProviderConfig) (ts : Option Unit)
    (r : Registry) (h : from_configs configs ts = .ok r) : r.model_to_provider = [] :=
  fromConfigsAux_index configs Registry.new r h

/-- C2: on every registry the program can build (`from_configs` never
populates the `model_to_provider` index, so lookups always fall through to the
linear scan), `get_provider_for_model` either returns a provider whose
`supports_model` holds or fails with `ModelNotSupported`. -/
theorem registry_routing_sound (configs : List ProviderConfig) (ts : Option Unit)
    (r : Registry) (m : String) (h : from_configs configs ts = .ok r) :
    ((∃ p, get_provider_for_model r m = .ok p ∧ p.supports_model m = true) ∨
      get_provider_for_model r m = .error (.ModelNotSupported m)) ∧
    get_provider_for_model r m = scanProviders r m := by
  have hidx : r.model_to_provider = [] := from_configs_index_empty configs ts r h
  have hscan : get_provider_for_model r m = scanProviders r m := by
    unfold get_provider_for_model
    rw [hidx]
    rfl
  refine ⟨?_, hscan⟩
  rw [hscan]
  unfold scanProviders
  cases hf : r.providers.find? (fun pr => pr.2.supports_model m) with
  | some pr =>
    left
    exact ⟨pr.2, rfl, by simpa using List.find?_some hf⟩
  | none =>
    right
    rfl

/-- Witness for C2: the empty configuration yields the empty registry, where
`"gpt-4"` is routed to `ModelNotSupported` (the source test
`test_get_provider_for_model_not_found`). -/
theorem registry_routing_sound_witness :
    (∃ p, get_provider_for_model Registry.new "gpt-4" = .ok p ∧
       p.supports_model "gpt-4" = true) ∨
    get_provider_for_model Registry.new "gpt-4" = .error (.ModelNotSupported "gpt-4") :=
  (registry_routing_sound [] none Registry.new "gpt-4" rfl).1

/-- The loop fails with a `ConfigError` whenever some enabled entry either has
ApiKey auth without an `api_key`, or an unknown `provider_type`. -/
theorem fromConfigsAux_config_error (cfgs : List ProviderConfig) :
    ∀ r0 : Registry,
      (∃ c, c ∈ cfgs ∧ c.enabled = true ∧
        ((c.auth_type = .apiKey ∧ c.api_key = none) ∨
          providerKindOf c.provider_type = none)) →
      isConfigErrorResult (fromConfigsAux r0 cfgs) = true := by
  induction cfgs with
  | nil =>
    intro r0 h
    obtain ⟨c, hc, -⟩ := h
    cases hc
  | cons c rest ih =>
    intro r0 h
    obtain ⟨c0, hmem, hen, hbad⟩ := h
    unfold fromConfigsAux
    by_cases he : c.enabled = false
    · rw [if_pos he]
      apply ih
      rcases List.mem_cons.mp hmem with rfl | hm
      · rw [hen] at he; cases he
      · exact ⟨c0, hm, hen, hbad⟩
    · rw [if_neg he]
      cases hk : resolveApiKey c with
      | error e =>
        have hc : isConfigErrorResult (Except.error e : Except ProviderError Registry)
            = true := by
          unfold resolveApiKey at hk
          cases hat : c.auth_type with
          | apiKey =>
            rw [hat] at hk
            cases hak : c.api_key with
            | some key => rw [hak] at hk; cases hk
            | none => rw [hak] at hk; cases hk; rfl
          | oauth => rw [hat] at hk; cases hk
        exact hc
      | ok key =>
        cases hp : providerKindOf c.provider_type with
        | none => rfl
        | some kind =>
          show isConfigErrorResult (fromConfigsAux
            { r0 with providers := assocInsert r0.providers c.name (mkProvider kind c) }
            rest) = true
          apply ih
          rcases List.mem_cons.mp hmem with rfl | hm
          · rcases hbad with ⟨hat, hak⟩ | hkn
            · simp [resolveApiKey, hat, hak] at hk
            · rw [hkn] at hp; cases hp
          · exact ⟨c0, hm, hen, hbad⟩

/-- C3 (amended): registry construction fails with `ConfigError` whenever an
enabled entry has ApiKey auth with an **absent** `api_key` (an empty-string
key is accepted), and whenever an enabled entry has an unknown
`provider_type`. -/
theorem from_configs_config_error (configs : List ProviderConfig) (ts : Option Unit)
    (h : ∃ c, c ∈ configs ∧ c.enabled = true ∧
      ((c.auth_type = .apiKey ∧ c.api_key = none) ∨
        providerKindOf c.provider_type = none)) :
    isConfigErrorResult (from_configs configs ts) = true :=
  fromConfigsAux_config_error configs Registry.new h

/-- Witness for C3: one enabled `openai` entry with ApiKey auth and no key. -/
theorem from_configs_config_error_witness :
    isConfigErrorResult (from_configs
      [⟨"q", "openai", .apiKey, none, none, none, [], none, none, true⟩] none) = true :=
  from_configs_config_error
    [⟨"q", "openai", .apiKey, none, none, none, [], none, none, true⟩] none
    ⟨⟨"q", "openai", .apiKey, none, none, none, [], none, none, true⟩,
      List.mem_singleton.mpr rfl, rfl, Or.inl ⟨rfl, rfl⟩⟩

/-- C3 counterexample: an enabled ApiKey entry whose `api_key` is the empty
string builds successfully — the source only checks presence, not
non-emptiness — refuting the claim that an empty `api_key` fails
construction. -/
theorem empty_api_key_accepted :
    (⟨"p", "openai", .apiKey, some "", none, none, [], none, none, true⟩
        : ProviderConfig).api_key = some "" ∧
    (⟨"p", "openai", .apiKey, some "", none, none, [], none, none, true⟩
        : ProviderConfig).enabled = true ∧
    (from_configs
      [⟨"p", "openai", .apiKey, some "", none, none, [], none, none, true⟩] none).isOk
      = true :=
  ⟨rfl, rfl, rfl⟩

/-! ## OAuth authorization URLs (C5) -/

/-- Every hex digit of an index below 16 is a lowercase hex character. -/
theorem hexDigit_lowerHex (n : Nat) (h : n < 16) : isLowerHex (hexDigit n) = true := by
  interval_cases n <;> decide

/-- Both characters of a formatted byte are lowercase hex. -/
theorem hexByteChars_lowerHex (b : Nat) : ∀ c ∈ hexByteChars b, isLowerHex c = true := by
  intro c hc
  simp only [hexByteChars, List.mem_cons, List.not_mem_nil, or_false] at hc
  rcases hc with rfl | rfl
  · exact hexDigit_lowerHex _ (Nat.mod_lt _ (by norm_num))
  · exact hexDigit_lowerHex _ (Nat.mod_lt _ (by norm_num))

/-- The hex state string has two characters per byte. -/
theorem hexEncode_length (bs : List Nat) : (hexEncode bs).length = 2 * bs.length := by
  show ((bs.map hexByteChars).flatten).length = 2 * bs.length
  induction bs with
  | nil => rfl
  | cons b rest ih =>
    simp only [List.map_cons, List.flatten_cons, List.length_append, ih, hexByteChars,
      List.length_cons, List.length_nil, List.length_cons]
    omega

/-- Every character of the hex state string is lowercase hex. -/
theorem hexEncode_lowerHex (bs : List Nat) :
    ∀ c ∈ (hexEncode bs).data, isLowerHex c = true := by
  show ∀ c ∈ (bs.map hexByteChars).flatten, _
  intro c hc
  rw [List.mem_flatten] at hc
  obtain ⟨l, hl, hcl⟩ := hc
  obtain ⟨b, -, rfl⟩ := List.mem_map.mp hl
  exact hexByteChars_lowerHex b c hcl

/-- C5: in the Codex dialect (client id `app_EMoamEEZ73f0CkXaXp7hrann`) the
authorization query carries `originator=codex_cli_rs`,
`codex_cli_simplified_flow=true`, `code_challenge_method=S256`, a `state` of
exactly 32 lowercase hex characters (the hex of the 16 random bytes), and no
`code=true`; in every other dialect (Anthropic) the `state` equals the PKCE
verifier exactly and `code=true` is present. -/
theorem authorization_url_state (config : OAuthConfig) (pkce : PKCEVerifier)
    (stateBytes : List Nat) (hlen : stateBytes.length = 16)
    (_hbytes : ∀ b ∈ stateBytes, b < 256) :
    (config.client_id = "app_EMoamEEZ73f0CkXaXp7hrann" →
      ("originator", "codex_cli_rs") ∈ get_authorization_url config pkce stateBytes ∧
      ("codex_cli_simplified_flow", "true") ∈ get_authorization_url config pkce stateBytes ∧
      ("code_challenge_method", "S256") ∈ get_authorization_url config pkce stateBytes ∧
      stateParams (get_authorization_url config pkce stateBytes) = [hexEncode stateBytes] ∧
      (hexEncode stateBytes).length = 32 ∧
      (∀ c ∈ (hexEncode stateBytes).data, isLowerHex c = true) ∧
      ("code", "true") ∉ get_authorization_url config pkce stateBytes) ∧
    (config.client_id ≠ "app_EMoamEEZ73f0CkXaXp7hrann" →
      stateParams (get_authorization_url config pkce stateBytes) = [pkce.verifier] ∧
      ("code", "true") ∈ get_authorization_url config pkce stateBytes) := by
  constructor
  · intro hcid
    unfold get_authorization_url
    rw [if_pos hcid]
    refine ⟨by simp, by simp, by simp, ?_, ?_, hexEncode_lowerHex stateBytes, ?_⟩
    · simp [stateParams]
    · rw [hexEncode_length, hlen]
    · simp
  · intro hcid
    unfold get_authorization_url
    rw [if_neg hcid]
    exact ⟨by simp [stateParams], by simp⟩

/-- Witness for C5 at the Codex configuration with 16 zero state bytes. -/
theorem authorization_url_state_witness :
    (List.replicate 16 0).length = 16 ∧
    ("originator", "codex_cli_rs")
      ∈ get_authorization_url OAuthConfig.openai_codex ⟨"v", "c"⟩ (List.replicate 16 0) ∧
    stateParams (get_authorization_url OAuthConfig.openai_codex ⟨"v", "c"⟩
        (List.replicate 16 0)) = [hexEncode (List.replicate 16 0)] ∧
    (hexEncode (List.replicate 16 0)).length = 32 ∧
    ("code", "true")
      ∉ get_authorization_url OAuthConfig.openai_codex ⟨"v", "c"⟩ (List.replicate 16 0) := by
  have h := authorization_url_state OAuthConfig.openai_codex ⟨"v", "c"⟩
    (List.replicate 16 0) (by decide) (by decide)
  have hc := h.1 rfl
  exact ⟨by decide, hc.1, hc.2.2.2.1, hc.2.2.2.2.1, hc.2.2.2.2.2.2⟩

/-! ## PKCE generation (C6) -/

/-- Length of the base64url-no-pad encoding: four characters per full 3-byte
group plus `r + 1` characters for a trailing group of `r ∈ {1, 2}` bytes. -/
theorem b64urlChars_length : (bs : List Nat) →
    (b64urlChars bs).length
      = 4 * (bs.length / 3) + (if bs.length % 3 = 0 then 0 else bs.length % 3 + 1)
  | [] => rfl
  | [_] => by simp [b64urlChars]
  | [_, _] => by simp [b64urlChars]
  | b0 :: b1 :: b2 :: rest => by
    simp only [b64urlChars, List.length_cons]
    rw [b64urlChars_length rest]
    have h3 : (rest.length + 1 + 1 + 1) / 3 = rest.length / 3 + 1 := by omega
    have h4 : (rest.length + 1 + 1 + 1) % 3 = rest.length % 3 := by omega
    rw [h3, h4]
    omega

/-- C6: `PKCEVerifier::generate` on 32 drawn random bytes produces the
base64url-no-pad encoding of those bytes as verifier (43 ASCII characters),
and a challenge equal to the base64url-no-pad encoding of the SHA-256 of the
verifier's UTF-8 bytes, so `base64url(SHA256(verifier)) = challenge` holds for
every generated pair. -/
theorem pkce_challenge_roundtrip (rb : List Nat) (hlen : rb.length = 32)
    (_hbytes : ∀ b ∈ rb, b < 256) :
    (PKCEVerifier.generate rb).verifier = b64url rb ∧
    (PKCEVerifier.generate rb).verifier.length = 43 ∧
    (PKCEVerifier.generate rb).challenge
      = b64url (sha256 (utf8Bytes (PKCEVerifier.generate rb).verifier)) := by
  refine ⟨rfl, ?_, rfl⟩
  show (b64urlChars rb).length = 43
  rw [b64urlChars_length, hlen]
  decide

/-- Witness for C6 at 32 zero bytes (verifier `"AAA…A"`). -/
theorem pkce_challenge_roundtrip_witness :
    (List.replicate 32 0).length = 32 ∧
    (PKCEVerifier.generate (List.replicate 32 0)).verifier.length = 43 ∧
    (PKCEVerifier.generate (List.replicate 32 0)).challenge
      = b64url (sha256 (utf8Bytes (PKCEVerifier.generate (List.replicate 32 0)).verifier)) := by
  have h := pkce_challenge_roundtrip (List.replicate 32 0) (by decide) (by decide)
  exact ⟨by decide, h.2.1, h.2.2⟩

set_option maxRecDepth 20000 in
/-- Sanity vector for the SHA-256 and base64url embedding: the RFC 7636
appendix B pair (spec scenario S1). -/
theorem pkce_rfc7636_vector :
    b64url (sha256 (utf8Bytes "dBjftJeZ4CVP-mB92K27uhbUJU1p1r_wW1gFWFOEjXk"))
      = "E9Melhoa2OwvFrEMTJguCHaoeK1t8URWbuGJSstw-cM" := by decide

/-- Sanity vector for the part conversion (spec scenario S3): a text part and
a `data:image/jpeg;base64,AAA` image part become a `Text` block and a base64
`Image` block with media type `image/jpeg` and payload `AAA`. -/
theorem openai_image_data_url_sample :
    userAssistantContent (some (.parts [.text "hi", .imageUrl ⟨"data:image/jpeg;base64,AAA"⟩]))
      = .blocks [.text "hi",
          .image ⟨"base64", some "image/jpeg", some "AAA", none⟩] := rfl
